import Mathlib

/-!
# Shallow embedding of `Optional<T>` (src/Optional.hpp)

The C++ class `Optional<T>` stores a presence flag `bool has_value_` and a raw
byte buffer `value_` that holds a live `T` exactly while the flag is true.
We embed a container state as a structure with the flag and an `Option α`
describing the storage: `some v` means a live, constructed `T` with value `v`
occupies the buffer; `none` means the buffer holds no constructed object.

Side effects of the contained type's special members are made observable as
event traces: `Ev.construct v` records a `std::construct_at` into the buffer,
`Ev.destroy v` records a `value().~T()` call.  Callback invocations
(`and_then` / `transform`) are recorded as the list of argument values the
callback was applied to.  Exceptions (`std::runtime_error("Bad Optional
access")`) are modelled with `Except`; an operation that throws returns the
error together with the state at the throw point, mirroring that stack
unwinding performs no further writes to the container.

Member functions taking `this auto&& self` dispatch on the value category of
the object expression; each C++ overload/instantiation becomes one Lean
definition, suffixed `_lv` (mutable lvalue), `_clv` (const lvalue) or `_rv`
(rvalue), matching `&`, `const&` and `&&` qualification.

The copy and the move constructor of the source return early when the source
is empty *without writing `has_value_`*; the member has no default
initializer, so on that path the flag stays indeterminate.  We model the
indeterminate bit with an explicit `junk : Bool` parameter that the embedding
uses only on that early-return path.
-/

/-- One observable side effect on the contained type `T`:
an in-place construction into the storage buffer or a destructor call
on the object living there. -/
inductive Ev (α : Type) where
  | construct (v : α)
  | destroy (v : α)
deriving DecidableEq, Repr

/-- State of an `Optional<T>`: the `has_value_` flag and the storage buffer,
`some v` iff a live `T` with value `v` is constructed in it. -/
structure Optional (α : Type) where
  has_value_ : Bool
  value_ : Option α
deriving DecidableEq, Repr

/-- Invariant I1: the buffer holds a live `T` iff the flag is true. -/
def Optional.Inv (s : Optional α) : Prop :=
  s.has_value_ = true ↔ s.value_.isSome = true

instance (s : Optional α) : Decidable s.Inv := by
  unfold Optional.Inv; infer_instance

/-- The bytes of the buffer interpreted as a `T`
(`*std::launder(reinterpret_cast<T*>(&value_))`); reading while no object is
live yields an unspecified value, modelled by `default`. -/
def Optional.read [Inhabited α] (s : Optional α) : α :=
  s.value_.getD default

/-- The single container-level error: `std::runtime_error("Bad Optional access")`. -/
inductive OptError where
  | badAccess
deriving DecidableEq, Repr

/-- `_throw_if_inactive()` (lines 150-153): throws iff `!has_value_`. -/
def Optional.throw_if_inactive (s : Optional α) : Except OptError Unit :=
  if !s.has_value_ then .error .badAccess else .ok ()

/-- `value() &` (lines 41-44): `_throw_if_inactive(); return *launder(...)`.
Returns the result, the (unwritten) state and the (empty) effect trace. -/
def Optional.value_lv [Inhabited α] (s : Optional α) :
    Except OptError α × Optional α × List (Ev α) :=
  match s.throw_if_inactive with
  | .error e => (.error e, s, [])
  | .ok _ => (.ok s.read, s, [])

/-- `value() const&` (lines 46-49): same body as the mutable overload. -/
def Optional.value_clv [Inhabited α] (s : Optional α) :
    Except OptError α × Optional α × List (Ev α) :=
  match s.throw_if_inactive with
  | .error e => (.error e, s, [])
  | .ok _ => (.ok s.read, s, [])

/-- `release_value()` (lines 142-148): `_throw_if_inactive(); T released =
std::move(value()); value().~T(); has_value_ = false; return released;`. -/
def Optional.release_value [Inhabited α] (s : Optional α) :
    Except OptError α × Optional α × List (Ev α) :=
  match s.throw_if_inactive with
  | .error e => (.error e, s, [])
  | .ok _ =>
    let released := s.read
    (.ok released, ⟨false, none⟩, [.destroy released])

/-- `value() &&` (lines 51-53): `return release_value();`. -/
def Optional.value_rv [Inhabited α] (s : Optional α) :
    Except OptError α × Optional α × List (Ev α) :=
  s.release_value

/-- `value_or(self, val)` for lvalue `self` (lines 55-59):
`if(self.has_value_) return self.value(); return val;` where `.value()`
resolves to the `&` overload. -/
def Optional.value_or_lv [Inhabited α] (s : Optional α) (val : α) :
    Except OptError α × Optional α × List (Ev α) :=
  if s.has_value_ then s.value_lv else (.ok val, s, [])

/-- `value_or(self, val)` for rvalue `self` (lines 55-59): the forwarded
`.value()` resolves to the `&&` overload, i.e. `release_value`. -/
def Optional.value_or_rv [Inhabited α] (s : Optional α) (val : α) :
    Except OptError α × Optional α × List (Ev α) :=
  if s.has_value_ then s.value_rv else (.ok val, s, [])

/-- `operator==(const O& other)` (lines 71-74):
`return has_value_ && value() == other;` (`&&` short-circuits, so `value()`
runs only when present). -/
def Optional.beq_val [Inhabited α] [DecidableEq α] (s : Optional α) (other : α) : Bool :=
  s.has_value_ && decide (s.read = other)

/-- `operator==(const Optional<O>& other)` (lines 76-79):
`return has_value_ == other.has_value_ && (!has_value_ || value() == other.value());`. -/
def Optional.beq_opt [Inhabited α] [DecidableEq α] (s other : Optional α) : Bool :=
  (s.has_value_ == other.has_value_) && (!s.has_value_ || decide (s.read = other.read))

/-- `clear()` (lines 155-159): `if(has_value_) value().~T(); has_value_ = false;`. -/
def Optional.clear [Inhabited α] (s : Optional α) : Optional α × List (Ev α) :=
  if s.has_value_ then (⟨false, none⟩, [.destroy s.read])
  else ({ s with has_value_ := false }, [])

/-- `has_value()` (line 161). -/
def Optional.has_value (s : Optional α) : Bool :=
  s.has_value_

/-- Move assignment `operator=(Optional&&)` (lines 81-88) for *distinct*
objects: `clear(); if(other.has_value_) { has_value_ = true;
construct_at(&value_, other.release_value()); } return *this;`.
Returns (new self, new other, trace). -/
def Optional.assign_move [Inhabited α] (self other : Optional α) :
    Optional α × Optional α × List (Ev α) :=
  let (self1, tr1) := self.clear
  if other.has_value_ then
    match other.release_value with
    | (.ok v, other1, tr2) => (⟨true, some v⟩, other1, tr1 ++ tr2 ++ [.construct v])
    | (.error _, other1, tr2) => (self1, other1, tr1 ++ tr2)
  else (self1, other, tr1)

/-- Move assignment when source and destination are the *same* object
(`a = std::move(a)`): `clear()` runs on the one object, after which
`other.has_value_` reads the already-cleared flag. -/
def Optional.assign_move_self [Inhabited α] (s : Optional α) :
    Optional α × List (Ev α) :=
  let (s1, tr1) := s.clear
  if s1.has_value_ then (s1, tr1) else (s1, tr1)

/-- Copy assignment `operator=(const Optional&)` (lines 90-97) for *distinct*
objects: `clear(); if(other.has_value_) { has_value_ = true;
construct_at(&value_, other.value()); } return *this;` (source unchanged). -/
def Optional.assign_copy [Inhabited α] (self other : Optional α) :
    Optional α × List (Ev α) :=
  let (self1, tr1) := self.clear
  if other.has_value_ then
    match other.value_clv with
    | (.ok v, _, _) => (⟨true, some v⟩, tr1 ++ [.construct v])
    | (.error _, _, _) => (self1, tr1)
  else (self1, tr1)

/-- Copy assignment when source and destination are the same object
(`a = a`): after `clear()`, the aliased source reads as empty. -/
def Optional.assign_copy_self [Inhabited α] (s : Optional α) :
    Optional α × List (Ev α) :=
  let (s1, tr1) := s.clear
  if s1.has_value_ then (s1, tr1) else (s1, tr1)

/-- `and_then(self, fn)` for lvalue `self` (lines 99-104):
`if(self.has_value_) fn(self.value()); return self;` — the forwarded
`.value()` is the `&` overload (a reference), `fn`'s result is discarded.
Returns (returned container, or the propagated error; arguments `fn` was
invoked on). -/
def Optional.and_then_lv [Inhabited α] (s : Optional α) :
    Except OptError (Optional α) × List α :=
  if s.has_value_ then
    match s.value_lv with
    | (.ok v, s1, _) => (.ok s1, [v])
    | (.error e, _, _) => (.error e, [])
  else (.ok s, [])

/-- `and_then(self, fn)` for rvalue `self` (lines 99-104): the forwarded
`.value()` is the `&&` overload, i.e. `release_value`, so `fn` receives the
extracted value and `return self` returns the container *after* extraction. -/
def Optional.and_then_rv [Inhabited α] (s : Optional α) :
    Except OptError (Optional α) × List α :=
  if s.has_value_ then
    match s.release_value with
    | (.ok v, s1, _) => (.ok s1, [v])
    | (.error e, _, _) => (.error e, [])
  else (.ok s, [])

/-- `transform(self, fn)` for lvalue `self` (lines 106-115): if present,
`OptionType{ fn(self.value()) }` with the `&` overload of `value()` (the new
container is built by the forwarding constructor); else `OptionType{}` (the
default constructor, empty).  Returns (new container, self afterwards,
arguments `fn` was invoked on). -/
def Optional.transform_lv [Inhabited α] (s : Optional α) (f : α → β) :
    Optional β × Optional α × List α :=
  if s.has_value_ then
    let v := s.read
    (⟨true, some (f v)⟩, s, [v])
  else (⟨false, none⟩, s, [])

/-- `transform(self, fn)` for rvalue `self` (lines 106-115): the forwarded
`.value()` is `release_value`, so the source is emptied. -/
def Optional.transform_rv [Inhabited α] (s : Optional α) (f : α → β) :
    Optional β × Optional α × List α :=
  if s.has_value_ then
    match s.release_value with
    | (.ok v, s1, _) => (⟨true, some (f v)⟩, s1, [v])
    | (.error _, s1, _) => (⟨false, none⟩, s1, [])
  else (⟨false, none⟩, s, [])

/-- `emplace(args...)` (lines 117-122): `clear(); has_value_ = true;
construct_at(&value_, args...);` — `v` is the `T` built from `args...`. -/
def Optional.emplace [Inhabited α] (s : Optional α) (v : α) :
    Optional α × List (Ev α) :=
  let (_, tr1) := s.clear
  (⟨true, some v⟩, tr1 ++ [.construct v])

/-- Forwarding constructor (lines 124-128): `construct_at(&value_, args...);
has_value_ = true;` — `v` is the `T` built from `args...`. -/
def Optional.ctor_fwd (v : α) : Optional α × List (Ev α) :=
  (⟨true, some v⟩, [.construct v])

/-- Default constructor (line 164) and `Nullopt` constructor (line 165):
`has_value_(false)`, nothing constructed. -/
def Optional.ctor_default : Optional α :=
  ⟨false, none⟩

/-- Copy constructor (lines 130-134): `if(!other.has_value_) return;
construct_at(&value_, other.value()); has_value_ = true;`.  On the early
return `has_value_` is never written: the member has no initializer, so the
flag is indeterminate, modelled by `junk`. -/
def Optional.ctor_copy [Inhabited α] (junk : Bool) (other : Optional α) :
    Optional α × List (Ev α) :=
  if !other.has_value_ then (⟨junk, none⟩, [])
  else
    match other.value_clv with
    | (.ok v, _, _) => (⟨true, some v⟩, [.construct v])
    | (.error _, _, _) => (⟨junk, none⟩, [])

/-- Move constructor (lines 136-140): `if(!other.has_value_) return;
construct_at(&value_, other.release_value()); has_value_ = true;`.  Same
uninitialized-flag early return as the copy constructor.
Returns (new container, source afterwards, trace). -/
def Optional.ctor_move [Inhabited α] (junk : Bool) (other : Optional α) :
    Optional α × Optional α × List (Ev α) :=
  if !other.has_value_ then (⟨junk, none⟩, other, [])
  else
    match other.release_value with
    | (.ok v, other1, tr) => (⟨true, some v⟩, other1, tr ++ [.construct v])
    | (.error _, other1, tr) => (⟨junk, none⟩, other1, tr)

/-- The values constructed into a buffer along a trace. -/
def constructsOf : List (Ev α) → List α
  | [] => []
  | .construct v :: tr => v :: constructsOf tr
  | .destroy _ :: tr => constructsOf tr

/-- The values whose destructor ran along a trace. -/
def destroysOf : List (Ev α) → List α
  | [] => []
  | .construct _ :: tr => destroysOf tr
  | .destroy v :: tr => v :: destroysOf tr

/-- An invocation of one of the operations named by invariant I3 as setting
`has_value_ = true`: the forwarding constructor, copy construction, move
construction, `emplace`, copy assignment, move assignment. -/
inductive SetOp (α : Type) where
  | fwd (v : α)
  | copyCtor (junk : Bool) (other : Optional α)
  | moveCtor (junk : Bool) (other : Optional α)
  | emplaceOp (s : Optional α) (v : α)
  | assignCopy (self other : Optional α)
  | assignMove (self other : Optional α)

/-- Run a flag-setting operation; result is the state of the constructed /
assigned-to object together with the full effect trace. -/
def SetOp.run [Inhabited α] : SetOp α → Optional α × List (Ev α)
  | .fwd v => Optional.ctor_fwd v
  | .copyCtor junk o => Optional.ctor_copy junk o
  | .moveCtor junk o =>
    match Optional.ctor_move junk o with
    | (b, _, tr) => (b, tr)
  | .emplaceOp s v => s.emplace v
  | .assignCopy s o => s.assign_copy o
  | .assignMove s o =>
    match s.assign_move o with
    | (s1, _, tr) => (s1, tr)

/-- Whether the executed path of the operation sets `has_value_ = true`
(the forwarding constructor and `emplace` always do; the others do exactly
when the source is present). -/
def SetOp.setsFlag : SetOp α → Bool
  | .fwd _ => true
  | .copyCtor _ o => o.has_value_
  | .moveCtor _ o => o.has_value_
  | .emplaceOp _ _ => true
  | .assignCopy _ o => o.has_value_
  | .assignMove _ o => o.has_value_

/-- The value the operation constructs into storage on its flag-setting path. -/
def SetOp.builtVal [Inhabited α] : SetOp α → α
  | .fwd v => v
  | .copyCtor _ o => o.read
  | .moveCtor _ o => o.read
  | .emplaceOp _ v => v
  | .assignCopy _ o => o.read
  | .assignMove _ o => o.read

/-! ## Helper lemmas -/

theorem Optional.throw_if_inactive_present (s : Optional α) (h : s.has_value_ = true) :
    s.throw_if_inactive = .ok () := by
  simp [Optional.throw_if_inactive, h]

theorem Optional.throw_if_inactive_empty (s : Optional α) (h : s.has_value_ = false) :
    s.throw_if_inactive = .error .badAccess := by
  simp [Optional.throw_if_inactive, h]

theorem Optional.value_lv_present [Inhabited α] (s : Optional α) (h : s.has_value_ = true) :
    s.value_lv = (.ok s.read, s, []) := by
  simp [Optional.value_lv, Optional.throw_if_inactive, h]

theorem Optional.value_clv_present [Inhabited α] (s : Optional α) (h : s.has_value_ = true) :
    s.value_clv = (.ok s.read, s, []) := by
  simp [Optional.value_clv, Optional.throw_if_inactive, h]

theorem Optional.release_value_present [Inhabited α] (s : Optional α)
    (h : s.has_value_ = true) :
    s.release_value = (.ok s.read, ⟨false, none⟩, [.destroy s.read]) := by
  simp [Optional.release_value, Optional.throw_if_inactive, h]

@[simp] theorem constructsOf_nil : constructsOf ([] : List (Ev α)) = [] := rfl

@[simp] theorem constructsOf_construct (v : α) (tr : List (Ev α)) :
    constructsOf (.construct v :: tr) = v :: constructsOf tr := rfl

@[simp] theorem constructsOf_destroy (v : α) (tr : List (Ev α)) :
    constructsOf (.destroy v :: tr) = constructsOf tr := rfl

@[simp] theorem constructsOf_append (a b : List (Ev α)) :
    constructsOf (a ++ b) = constructsOf a ++ constructsOf b := by
  induction a with
  | nil => rfl
  | cons e tr ih => cases e <;> simp [ih]

@[simp] theorem destroysOf_nil : destroysOf ([] : List (Ev α)) = [] := rfl

@[simp] theorem destroysOf_construct (v : α) (tr : List (Ev α)) :
    destroysOf (.construct v :: tr) = destroysOf tr := rfl

@[simp] theorem destroysOf_destroy (v : α) (tr : List (Ev α)) :
    destroysOf (.destroy v :: tr) = v :: destroysOf tr := rfl

theorem Optional.constructsOf_clear [Inhabited α] (s : Optional α) :
    constructsOf (s.clear).2 = [] := by
  by_cases h : s.has_value_ <;> simp [Optional.clear, h]

theorem Optional.clear_trace [Inhabited α] (s : Optional α) :
    (s.clear).2 = if s.has_value_ then [.destroy s.read] else [] := by
  by_cases h : s.has_value_ <;> simp [Optional.clear, h]

/-! ## Claims -/

/-- C1: on an empty container, every checked access — `value()` in all three
ref-qualified overloads and `release_value()` — fails with the `BadAccess`
error, returns the container in its prior (still empty) state, and performs
no construction or destruction of a contained value (empty effect trace). -/
theorem C1_empty_access_fails_without_mutation [Inhabited α] (s : Optional α)
    (h : s.has_value_ = false) :
    s.value_lv = (.error .badAccess, s, []) ∧
    s.value_clv = (.error .badAccess, s, []) ∧
    s.value_rv = (.error .badAccess, s, []) ∧
    s.release_value = (.error .badAccess, s, []) := by
  simp [Optional.value_lv, Optional.value_clv, Optional.value_rv,
        Optional.release_value, Optional.throw_if_inactive, h]

theorem C1_empty_access_fails_without_mutation_witness :
    (Optional.ctor_default : Optional Nat).has_value_ = false ∧
    (Optional.ctor_default : Optional Nat).value_lv =
      (.error .badAccess, Optional.ctor_default, []) ∧
    (Optional.ctor_default : Optional Nat).release_value =
      (.error .badAccess, Optional.ctor_default, []) := by
  refine ⟨rfl, ?_, ?_⟩
  · exact (C1_empty_access_fails_without_mutation Optional.ctor_default rfl).1
  · exact (C1_empty_access_fails_without_mutation Optional.ctor_default rfl).2.2.2

/-- C2: every operation listed by invariant I3 (forwarding constructor,
copy/move construction, `emplace`, copy/move assignment), on each executed
path that sets `has_value_` to true, constructs a `T` into storage exactly
once (the trace's construction list is exactly the one built value) and ends
— the first point at which any other operation can observe the flag in this
single-threaded model — with the flag true and that value live in storage. -/
theorem C2_flag_set_implies_one_construct [Inhabited α] (op : SetOp α)
    (h : op.setsFlag = true) :
    op.run.1 = ⟨true, some op.builtVal⟩ ∧
    constructsOf op.run.2 = [op.builtVal] := by
  cases op with
  | fwd v => exact ⟨rfl, rfl⟩
  | copyCtor junk o =>
    simp only [SetOp.setsFlag] at h
    simp [SetOp.run, SetOp.builtVal, Optional.ctor_copy, h,
          Optional.value_clv_present o h]
  | moveCtor junk o =>
    simp only [SetOp.setsFlag] at h
    simp [SetOp.run, SetOp.builtVal, Optional.ctor_move, h,
          Optional.release_value_present o h]
  | emplaceOp s v =>
    simp [SetOp.run, SetOp.builtVal, Optional.emplace, Optional.constructsOf_clear]
  | assignCopy s o =>
    simp only [SetOp.setsFlag] at h
    simp [SetOp.run, SetOp.builtVal, Optional.assign_copy, h,
          Optional.value_clv_present o h, Optional.constructsOf_clear]
  | assignMove s o =>
    simp only [SetOp.setsFlag] at h
    simp [SetOp.run, SetOp.builtVal, Optional.assign_move, h,
          Optional.release_value_present o h, Optional.constructsOf_clear]

theorem C2_flag_set_implies_one_construct_witness :
    (SetOp.emplaceOp (Optional.ctor_default : Optional Nat) 5).setsFlag = true ∧
    (SetOp.emplaceOp (Optional.ctor_default : Optional Nat) 5).run.1 = ⟨true, some 5⟩ ∧
    constructsOf (SetOp.emplaceOp (Optional.ctor_default : Optional Nat) 5).run.2 = [5] := by
  refine ⟨rfl, ?_, ?_⟩
  · exact (C2_flag_set_implies_one_construct
      (SetOp.emplaceOp (Optional.ctor_default : Optional Nat) 5) rfl).1
  · exact (C2_flag_set_implies_one_construct
      (SetOp.emplaceOp (Optional.ctor_default : Optional Nat) 5) rfl).2

/-- C3 (code bug): move-constructing from an *empty* source returns early
without ever writing `has_value_` (the member has no default initializer),
so the new container's flag is indeterminate — here, whatever junk bit the
model supplies — instead of the `false` the spec requires; with junk bit
`true` the new container even reads as present while no `T` was constructed,
violating invariant I1.  The present-source branch behaves as specified:
the new container holds the source's value and the source is left empty with
its instance destroyed exactly once. -/
theorem C3_move_ctor_empty_source_flag_uninitialized :
    (∀ junk : Bool,
      (Optional.ctor_move junk (Optional.ctor_default : Optional Nat)).1 =
        ⟨junk, none⟩) ∧
    ¬ (Optional.ctor_move true (Optional.ctor_default : Optional Nat)).1.Inv ∧
    (∀ v : Nat, Optional.ctor_move false (⟨true, some v⟩ : Optional Nat) =
      (⟨true, some v⟩, ⟨false, none⟩, [.destroy v, .construct v])) := by
  refine ⟨?_, by decide, ?_⟩
  · intro junk
    cases junk <;> rfl
  · intro v
    simp [Optional.ctor_move,
          Optional.release_value_present (⟨true, some v⟩ : Optional Nat) rfl,
          Optional.read]

/-- C4: on a present container holding `v`, `release_value()` returns `v`,
runs `T`'s destructor on the stored instance exactly once (the trace's
destruction list is exactly `[v]`), leaves the container empty, and an
immediately following `release_value()` fails with `BadAccess`. -/
theorem C4_release_value_destroys_once_and_empties [Inhabited α] (v : α) :
    (⟨true, some v⟩ : Optional α).release_value =
      (.ok v, ⟨false, none⟩, [.destroy v]) ∧
    destroysOf ((⟨true, some v⟩ : Optional α).release_value).2.2 = [v] ∧
    (((⟨true, some v⟩ : Optional α).release_value).2.1).release_value =
      (.error .badAccess, ⟨false, none⟩, []) :=
  ⟨rfl, rfl, rfl⟩

/-- C5: `transform(fn)` on a present container holding `v` returns a new
container of the mapped type that is present with value `fn v`, invoking `fn`
exactly once (on `v`); on an empty container it returns a new empty container
of the mapped type and `fn` is never invoked — in both the lvalue and the
rvalue access context. -/
theorem C5_transform_maps_or_skips [Inhabited α] (v : α) (f : α → β) :
    (⟨true, some v⟩ : Optional α).transform_lv f =
      (⟨true, some (f v)⟩, ⟨true, some v⟩, [v]) ∧
    (⟨true, some v⟩ : Optional α).transform_rv f =
      (⟨true, some (f v)⟩, ⟨false, none⟩, [v]) ∧
    (⟨false, none⟩ : Optional α).transform_lv f =
      (⟨false, none⟩, ⟨false, none⟩, []) ∧
    (⟨false, none⟩ : Optional α).transform_rv f =
      (⟨false, none⟩, ⟨false, none⟩, []) :=
  ⟨rfl, rfl, rfl, rfl⟩

/-- C6 counterexample: the claim says `and_then` "returns the container
itself with the same presence state it had before the call"; on a present
container accessed as an rvalue, the pre-call presence state is `true` but
the returned container is empty (`fn` received the value extracted by
`release_value`). -/
theorem C6_counterexample_rv_loses_presence :
    (⟨true, some (0 : Nat)⟩ : Optional Nat).has_value_ = true ∧
    ((⟨true, some (0 : Nat)⟩ : Optional Nat).and_then_rv).1 =
      .ok (⟨false, none⟩ : Optional Nat) ∧
    (⟨false, none⟩ : Optional Nat).has_value_ = false :=
  ⟨rfl, rfl, rfl⟩

/-- C6 (amended): `and_then(fn)` invokes `fn` with the contained value
exactly when the container is present, never raises an error (in particular
not when empty), discards `fn`'s return value, and returns the container
itself; when accessed as an lvalue the returned container has its pre-call
state, while when accessed as an expiring rvalue a present container's value
is extracted for `fn`, so the returned container is empty. -/
theorem C6_and_then_amended [Inhabited α] (s : Optional α) :
    s.and_then_lv = (.ok s, if s.has_value_ then [s.read] else []) ∧
    s.and_then_rv =
      (.ok (if s.has_value_ then (⟨false, none⟩ : Optional α) else s),
       if s.has_value_ then [s.read] else []) := by
  cases h : s.has_value_ with
  | false => simp [Optional.and_then_lv, Optional.and_then_rv, h]
  | true =>
    simp [Optional.and_then_lv, Optional.and_then_rv, h,
          Optional.value_lv_present s h, Optional.release_value_present s h]

/-- C7: copy- and move-assignment first clear the destination, destroying its
held value exactly once (the trace begins with that single destruction), then
reconstruct from the source exactly when the source is present (move
assignment additionally destroys the source's instance as it extracts it);
self-assignment performs a single destruction, reads nothing afterwards, and
yields an empty container. -/
theorem C7_assignment_clears_then_reconstructs [Inhabited α] (v w : α) :
    ((⟨true, some v⟩ : Optional α).assign_copy ⟨true, some w⟩ =
      (⟨true, some w⟩, [.destroy v, .construct w])) ∧
    ((⟨true, some v⟩ : Optional α).assign_copy ⟨false, none⟩ =
      (⟨false, none⟩, [.destroy v])) ∧
    ((⟨false, none⟩ : Optional α).assign_copy ⟨true, some w⟩ =
      (⟨true, some w⟩, [.construct w])) ∧
    ((⟨false, none⟩ : Optional α).assign_copy ⟨false, none⟩ =
      (⟨false, none⟩, [])) ∧
    ((⟨true, some v⟩ : Optional α).assign_move ⟨true, some w⟩ =
      (⟨true, some w⟩, ⟨false, none⟩, [.destroy v, .destroy w, .construct w])) ∧
    ((⟨true, some v⟩ : Optional α).assign_move ⟨false, none⟩ =
      (⟨false, none⟩, ⟨false, none⟩, [.destroy v])) ∧
    ((⟨false, none⟩ : Optional α).assign_move ⟨true, some w⟩ =
      (⟨true, some w⟩, ⟨false, none⟩, [.destroy w, .construct w])) ∧
    ((⟨false, none⟩ : Optional α).assign_move ⟨false, none⟩ =
      (⟨false, none⟩, ⟨false, none⟩, [])) ∧
    ((⟨true, some v⟩ : Optional α).assign_copy_self = (⟨false, none⟩, [.destroy v])) ∧
    ((⟨true, some v⟩ : Optional α).assign_move_self = (⟨false, none⟩, [.destroy v])) ∧
    ((⟨false, none⟩ : Optional α).assign_copy_self = (⟨false, none⟩, [])) ∧
    ((⟨false, none⟩ : Optional α).assign_move_self = (⟨false, none⟩, [])) :=
  ⟨rfl, rfl, rfl, rfl, rfl, rfl, rfl, rfl, rfl, rfl, rfl, rfl⟩

/-- C8: `value_or(fallback)` returns the contained value when present and the
fallback when empty, and never raises — in both the lvalue context (container
untouched) and the rvalue context (value extracted when present). -/
theorem C8_value_or_total [Inhabited α] (v val : α) :
    (⟨true, some v⟩ : Optional α).value_or_lv val =
      (.ok v, ⟨true, some v⟩, []) ∧
    (⟨false, none⟩ : Optional α).value_or_lv val =
      (.ok val, ⟨false, none⟩, []) ∧
    (⟨true, some v⟩ : Optional α).value_or_rv val =
      (.ok v, ⟨false, none⟩, [.destroy v]) ∧
    (⟨false, none⟩ : Optional α).value_or_rv val =
      (.ok val, ⟨false, none⟩, []) :=
  ⟨rfl, rfl, rfl, rfl⟩

/-- C9: equality against a bare value is true iff the container is present
and holds an equal value (an empty container never equals a bare value);
equality of two containers of the same contained type is true iff the
presence states agree and, when both are present, the values are equal — so
two empty containers are equal and present never equals empty. -/
theorem C9_equality_semantics [Inhabited α] [DecidableEq α] (v w : α) (stor : Option α) :
    ((⟨true, some v⟩ : Optional α).beq_val w = decide (v = w)) ∧
    ((⟨false, stor⟩ : Optional α).beq_val w = false) ∧
    ((⟨false, none⟩ : Optional α).beq_opt ⟨false, none⟩ = true) ∧
    ((⟨true, some v⟩ : Optional α).beq_opt ⟨true, some w⟩ = decide (v = w)) ∧
    ((⟨true, some v⟩ : Optional α).beq_opt ⟨false, none⟩ = false) ∧
    ((⟨false, none⟩ : Optional α).beq_opt ⟨true, some w⟩ = false) := by
  simp [Optional.beq_val, Optional.beq_opt, Optional.read]

/-- C10: on a present container accessed as an expiring rvalue, `value()`,
`transform(fn)` and `value_or(f)` all go through `release_value`, so the
source container is observably empty afterwards (its instance destroyed),
even though each still delivers the expected result. -/
theorem C10_rvalue_access_extracts [Inhabited α] (v w : α) (f : α → β) :
    (⟨true, some v⟩ : Optional α).value_rv =
      (⟨true, some v⟩ : Optional α).release_value ∧
    (⟨true, some v⟩ : Optional α).value_rv = (.ok v, ⟨false, none⟩, [.destroy v]) ∧
    (⟨true, some v⟩ : Optional α).transform_rv f =
      (⟨true, some (f v)⟩, ⟨false, none⟩, [v]) ∧
    (⟨true, some v⟩ : Optional α).value_or_rv w =
      (.ok v, ⟨false, none⟩, [.destroy v]) :=
  ⟨rfl, rfl, rfl, rfl⟩
